import Mathlib

/-!
Shallow embedding of the ledger/balance core of the Gaming-Platform-API
repository (FastAPI + MongoDB).  Collections are lists of documents; a
MongoDB `update_one` is modelled as updating the first matching document,
`$inc` as in-place addition, and a session transaction as: writes issued
inside the session become visible only if the function reaches its commit,
while writes issued outside the session apply immediately.  Monetary
amounts (Python floats) are modelled as rationals.  Document ids
(ObjectIds) are modelled as naturals; newly generated ids are passed in as
parameters.  Each definition names the Python function it embeds.
-/

namespace GamingPlatform

/-! ## Data model (db/models.py) -/

/-- DepositStatus (models.py): pending / approved / rejected. -/
inductive DepositStatus where
  | pending
  | approved
  | rejected
deriving DecidableEq, Repr

/-- WithdrawalStatus (models.py): pending / approved / rejected. -/
inductive WithdrawalStatus where
  | pending
  | approved
  | rejected
deriving DecidableEq, Repr

/-- TransactionType (models.py): deposit / game / withdrawal. -/
inductive TransactionType where
  | deposit
  | game
  | withdrawal
deriving DecidableEq, Repr

/-- GameResult (models.py): win / lose. -/
inductive GameResult where
  | win
  | lose
deriving DecidableEq, Repr

/-- `status.value` of the str-enum WithdrawalStatus. -/
def WithdrawalStatus.value : WithdrawalStatus → String
  | .pending => "pending"
  | .approved => "approved"
  | .rejected => "rejected"

def WithdrawalStatus.isPending : WithdrawalStatus → Bool
  | .pending => true
  | _ => false

def DepositStatus.isPending : DepositStatus → Bool
  | .pending => true
  | _ => false

/-- A document of the `users` collection, restricted to the fields the
ledger core reads (identity and `balance`). -/
structure UserDoc where
  id : Nat
  balance : ℚ
deriving DecidableEq, Repr

/-- A document of the `deposits` collection (user_id, amount, reference,
status), as written by `create_deposit`. -/
structure DepositDoc where
  id : Nat
  user_id : Nat
  amount : ℚ
  reference : String
  status : DepositStatus
deriving DecidableEq, Repr

/-- BankAccount (models.py). -/
structure BankAccount where
  account_number : String
  account_name : String
  bank_name : String
  bank_code : Option String := none
deriving DecidableEq, Repr

/-- A document of the `withdrawals` collection, as written by
`create_withdrawal` and updated by `process_withdrawal`. -/
structure WithdrawalDoc where
  id : Nat
  user_id : Nat
  amount : ℚ
  bank_account : BankAccount
  reference : String
  status : WithdrawalStatus
  admin_notes : Option String := none
  processed_by : Option Nat := none
deriving DecidableEq, Repr

/-- A document of the `transactions` collection.  MongoDB documents are
schemaless: the `status` field is present only where the code writes it
(withdrawal debit entries and the refund entry of `process_withdrawal`);
deposit-approval and game entries carry no `status` key, modelled as
`none`.  Likewise `result`, `payout`, `game_id`, `game_name`, `notes` are
optional. -/
structure TxDoc where
  id : Nat
  user_id : Nat
  type : TransactionType
  amount : ℚ
  reference : Option String := none
  status : Option String := none
  result : Option GameResult := none
  payout : Option ℚ := none
  game_id : Option Nat := none
  game_name : Option String := none
  notes : Option String := none
deriving DecidableEq, Repr

/-- The four collections the ledger core touches. -/
structure DB where
  users : List UserDoc
  deposits : List DepositDoc
  withdrawals : List WithdrawalDoc
  transactions : List TxDoc
deriving DecidableEq, Repr

/-- Payload of TransactionCreate (models.py 164-176), as sent to the
`POST /transactions/game` route. -/
structure TransactionCreateDoc where
  user_id : Option Nat := none
  type : TransactionType
  amount : ℚ
  game_id : Option Nat := none
  game_name : Option String := none
  result : Option GameResult := none
  payout : Option ℚ := none
  reference : Option String := none
deriving DecidableEq, Repr

/-! ## Store primitives -/

/-- `update_one`: update the first document matching the filter. -/
def updateFirst {α : Type} (p : α → Bool) (f : α → α) : List α → List α
  | [] => []
  | x :: xs => if p x then f x :: xs else x :: updateFirst p f xs

/-- `db.users.update_one({_id: uid}, {$inc: {balance: δ}})`. -/
def DB.incBalance (s : DB) (uid : Nat) (delta : ℚ) : DB :=
  let users := updateFirst (fun u => u.id == uid)
    (fun u => { u with balance := u.balance + delta }) s.users
  { s with users := users }

/-- Balance of the (first) user document with the given id. -/
def DB.balanceOf (s : DB) (uid : Nat) : Option ℚ :=
  (s.users.find? (fun u => u.id == uid)).map (fun u => u.balance)

/-! ## Account store (services/user_service.py) -/

/-- `update_user_balance` (user_service.py 279-299): a plain `$inc` on the
user's balance, issued WITHOUT any session ("Update user balance without
session support"), returning `modified_count == 1` — true exactly when a
user with that id was matched and the increment changed the document
(a `$inc` of 0 modifies nothing). -/
def update_user_balance (s : DB) (user_id : Nat) (amount : ℚ) : Bool × DB :=
  if s.users.any (fun u => u.id == user_id) && !(amount == 0) then
    (true, s.incBalance user_id amount)
  else
    (false, s)

/-! ## Deposit workflow (services/deposit_service.py, api/routes/deposits.py) -/

/-- Service-level errors, standing for the `ValueError` messages the
Python services raise. -/
inductive SvcError where
  | userNotFound
  | insufficientBalance
  | creationFailed
  | readBackFailed
deriving DecidableEq, Repr

/-- HTTP-level errors the modelled routes surface to the caller. -/
inductive RouteError where
  | internalError
deriving DecidableEq, Repr

/-- `create_deposit` (deposit_service.py 96-129): inserts one deposit
document with status forced to "pending"; no transaction record and no
session are involved.  The subsequent read-back of the inserted document
is retried; `readBackOk` says whether it eventually succeeds — on failure
the function raises, but the insert has already been committed. -/
def create_deposit (s : DB) (user_id : Nat) (amount : ℚ) (reference : String)
    (newId : Nat) (readBackOk : Bool) : Except SvcError DepositDoc × DB :=
  let doc : DepositDoc :=
    { id := newId, user_id := user_id, amount := amount,
      reference := reference, status := .pending }
  let s1 : DB := { s with deposits := s.deposits ++ [doc] }
  if readBackOk then (.ok doc, s1) else (.error .readBackFailed, s1)

/-- Exceptions raised inside the try body of `create_new_deposit`
(routes/deposits.py 44-58): the route's own HTTPException(400) for a
non-positive amount, and the TypeError from the call
`create_deposit(amount=..., reference=..., user_id=...)` against the
service signature `create_deposit(deposit_data: DepositCreate)`. -/
inductive DepositRouteExc where
  | httpBadRequest (detail : String)
  | typeError
deriving DecidableEq, Repr

/-- The try body of `create_new_deposit` (routes/deposits.py 44-58):
`amount <= 0` raises HTTPException(400, "Amount must be positive");
otherwise the mismatched call into the service raises TypeError. -/
def create_new_deposit_body (amount : ℚ) : Except DepositRouteExc DepositDoc :=
  if amount ≤ 0 then .error (.httpBadRequest "Amount must be positive")
  else .error .typeError

/-- `create_new_deposit` (routes/deposits.py 38-70).  Its handler chain
is `except ValueError` (400) then `except Exception` (500) — unlike the
other handlers in the file there is no `except HTTPException: raise` —
so the route's own 400 "Amount must be positive" is caught by
`except Exception` and surfaced as a 500 "Failed to create deposit
request", the same outcome as the TypeError of the mismatched service
call: neither exception is a ValueError, and every request through this
route fails with an internal error. -/
def create_new_deposit (s : DB) (amount : ℚ) : Except RouteError DepositDoc × DB :=
  match create_new_deposit_body amount with
  | .ok d => (.ok d, s)
  | .error _ => (.error .internalError, s)

/-- `approve_deposit` (deposit_service.py 149-243).  Finds the deposit by
id AND status "pending" (compare-and-set); then inside a session
transaction: (1) sets the deposit status to approved, (2) calls
`update_user_balance` — which runs OUTSIDE the session — and (3) inserts
the ledger record (a TransactionCreate dict: type deposit, amount,
reference; no status field) with a pre-generated id, then commits.  Any
step failing raises, aborting the session: the session-buffered writes
(1) and (3) are discarded, but the balance increment (2), being
sessionless, survives the abort.  `txInsertOk` injects a failure into the
step-(3) insert. -/
def approve_deposit (s : DB) (deposit_id : Nat) (newTxId : Nat)
    (txInsertOk : Bool) : Option DepositDoc × DB :=
  match s.deposits.find? (fun d => d.id == deposit_id && d.status.isPending) with
  | none => (none, s)
  | some d =>
    let step2 := update_user_balance s d.user_id d.amount
    if !step2.1 then
      (none, step2.2)
    else if !txInsertOk then
      (none, step2.2)
    else
      let tx : TxDoc :=
        { id := newTxId, user_id := d.user_id, type := .deposit,
          amount := d.amount, reference := some d.reference }
      let deposits := updateFirst (fun x => x.id == deposit_id)
        (fun x => { x with status := .approved }) step2.2.deposits
      (some { d with status := .approved },
        { step2.2 with deposits := deposits,
                       transactions := step2.2.transactions ++ [tx] })

/-- `reject_deposit` (deposit_service.py 246-267): fetches the deposit by
id, returns None unless its status is "pending", otherwise sets the
status to rejected.  No balance change, no ledger write. -/
def reject_deposit (s : DB) (deposit_id : Nat) : Option DepositDoc × DB :=
  match s.deposits.find? (fun d => d.id == deposit_id) with
  | none => (none, s)
  | some d =>
    if !d.status.isPending then (none, s)
    else
      let deposits := updateFirst (fun x => x.id == deposit_id)
        (fun x => { x with status := .rejected }) s.deposits
      (some { d with status := .rejected }, { s with deposits := deposits })

/-! ## Withdrawal workflow (services/withdrawal_service.py) -/

/-- `reference or f"WDR-..."` (withdrawal_service.py 164): Python `or`
falls through to the generated reference when the given one is None or
the empty string. -/
def resolve_reference (reference : Option String) (autoRef : String) : String :=
  match reference with
  | some r => if r = "" then autoRef else r
  | none => autoRef

/-- WithdrawalCreate (models.py 201-204): `amount: float = Field(..., gt=0)`
— request bodies with amount ≤ 0 fail validation before any route code
runs. -/
def withdrawal_create_valid (amount : ℚ) : Bool := decide (0 < amount)

/-- `create_withdrawal` (withdrawal_service.py 128-214).  Inside one
session transaction: reads the user (error if absent), errors with
"Insufficient balance" if `balance < amount`, inserts the pending
withdrawal, debits the balance with `$inc: -amount`, inserts the pending
ledger record, and commits.  On any error the session aborts, leaving the
state untouched. -/
def create_withdrawal (s : DB) (amount : ℚ) (bank_account : BankAccount)
    (reference : Option String) (user_id : Nat) (newWid newTxId : Nat)
    (autoRef : String) : Except SvcError WithdrawalDoc × DB :=
  match s.users.find? (fun u => u.id == user_id) with
  | none => (.error .userNotFound, s)
  | some u =>
    if u.balance < amount then (.error .insufficientBalance, s)
    else
      let r := resolve_reference reference autoRef
      let w : WithdrawalDoc :=
        { id := newWid, user_id := user_id, amount := amount,
          bank_account := bank_account, reference := r, status := .pending }
      let tx : TxDoc :=
        { id := newTxId, user_id := user_id, type := .withdrawal,
          amount := amount, reference := some r, status := some "pending" }
      (.ok w,
        { (s.incBalance user_id (-amount)) with
            withdrawals := s.withdrawals ++ [w],
            transactions := s.transactions ++ [tx] })

/-- `process_withdrawal` (withdrawal_service.py 217-304).  Finds the
withdrawal by id AND status "pending"; sets its status (plus admin notes /
processor when truthy), sets the status of the first transaction whose
`reference` equals the withdrawal's reference to `status.value`, and — on
rejection only — refunds the amount with `$inc` and inserts a refund
record (type DEPOSIT, amount, reference "REFUND-"+reference, status
"completed", notes "Withdrawal refund"); all inside one session. -/
def process_withdrawal (s : DB) (withdrawal_id : Nat) (status : WithdrawalStatus)
    (admin_notes : Option String) (admin_id : Option Nat) (newTxId : Nat) :
    Option WithdrawalDoc × DB :=
  match s.withdrawals.find? (fun w => w.id == withdrawal_id && w.status.isPending) with
  | none => (none, s)
  | some w =>
    let upd : WithdrawalDoc → WithdrawalDoc := fun x =>
      { x with status := status,
               admin_notes := match admin_notes with
                 | some n => if n = "" then x.admin_notes else some n
                 | none => x.admin_notes,
               processed_by := match admin_id with
                 | some a => some a
                 | none => x.processed_by }
    let ws := updateFirst (fun x => x.id == withdrawal_id) upd s.withdrawals
    let ts := updateFirst (fun t => t.reference == some w.reference)
      (fun t => { t with status := some status.value }) s.transactions
    match status with
    | .rejected =>
      let refundTx : TxDoc :=
        { id := newTxId, user_id := w.user_id, type := .deposit,
          amount := w.amount, reference := some ("REFUND-" ++ w.reference),
          status := some "completed", notes := some "Withdrawal refund" }
      let s2 := ({ s with withdrawals := ws, transactions := ts }).incBalance w.user_id w.amount
      (some (upd w), { s2 with transactions := s2.transactions ++ [refundTx] })
    | _ =>
      (some (upd w), { s with withdrawals := ws, transactions := ts })

/-- `approve_withdrawal` (withdrawal_service.py 306-321): a single
compare-and-set `update_one({_id, status: pending}, {$set: {status:
approved}})`; returns the updated document, or None when nothing matched.
It touches neither the users nor the transactions collection. -/
def approve_withdrawal (s : DB) (withdrawal_id : Nat) : Option WithdrawalDoc × DB :=
  match s.withdrawals.find? (fun w => w.id == withdrawal_id && w.status.isPending) with
  | none => (none, s)
  | some w =>
    let withdrawals := updateFirst
      (fun x => x.id == withdrawal_id && x.status.isPending)
      (fun x => { x with status := .approved }) s.withdrawals
    (some { w with status := .approved }, { s with withdrawals := withdrawals })

/-- `reject_withdrawal` (withdrawal_service.py 324-390).  Inside one
session: finds the withdrawal by id AND status "pending" (None
otherwise), sets its status to rejected, refunds the user with `$inc:
+amount`, and inserts a refund record built from a TransactionCreate
(type DEPOSIT "Using DEPOSIT for refund", amount, reference
"REFUND-"+reference — TransactionCreate carries no status field).  The
original debit record is not touched. -/
def reject_withdrawal (s : DB) (withdrawal_id : Nat) (newTxId : Nat) :
    Option WithdrawalDoc × DB :=
  match s.withdrawals.find? (fun w => w.id == withdrawal_id && w.status.isPending) with
  | none => (none, s)
  | some w =>
    let refundTx : TxDoc :=
      { id := newTxId, user_id := w.user_id, type := .deposit,
        amount := w.amount, reference := some ("REFUND-" ++ w.reference) }
    let withdrawals := updateFirst (fun x => x.id == withdrawal_id)
      (fun x => { x with status := .rejected }) s.withdrawals
    let s1 := DB.incBalance { s with withdrawals := withdrawals } w.user_id w.amount
    (some { w with status := .rejected },
      { s1 with transactions := s1.transactions ++ [refundTx] })

/-! ## Game settlement (api/routes/transactions.py 146-208) -/

/-- Python truthiness of an optional float: 0.0 and None are falsy. -/
def truthyQ : Option ℚ → Option ℚ
  | some p => if p = 0 then none else some p
  | none => none

/-- Python truthiness of an optional string: "" and None are falsy. -/
def truthyS : Option String → Option String
  | some n => if n = "" then none else some n
  | none => none

/-- `create_game_transaction` (routes/transactions.py 146-208).  Inside a
session transaction: builds the transaction document (user_id forced to
the authenticated caller; optional fields recorded only when truthy) and
inserts it, then computes `balance_change = -amount` plus `payout` when
`result == "win"` and applies it with `$inc`.  A win with no payout
raises `TypeError` (None + float), so the transaction aborts and the
route returns a 500 with no state change. -/
def create_game_transaction (s : DB) (current_user : Nat)
    (t : TransactionCreateDoc) (newTxId : Nat) : Except RouteError TxDoc × DB :=
  let doc : TxDoc :=
    { id := newTxId, user_id := current_user, type := t.type,
      amount := t.amount, reference := t.reference,
      game_id := t.game_id, game_name := truthyS t.game_name,
      result := t.result, payout := truthyQ t.payout }
  match t.result with
  | some .win =>
    match t.payout with
    | none => (.error .internalError, s)
    | some p =>
      (.ok doc, { (s.incBalance current_user (p - t.amount)) with
          transactions := s.transactions ++ [doc] })
  | _ =>
    (.ok doc, { (s.incBalance current_user (-t.amount)) with
        transactions := s.transactions ++ [doc] })

/-! ## Transaction ledger append (services/transaction_service.py 96-159)

`create_transaction` is modelled as the trace of store operations it
performs, so that the claim about its retry discipline (the insert runs
once; only the read-back confirmation is retried) is visible in the
model.  `readOk k` says whether the k-th read-back attempt sees the
just-inserted record (an attempt that raises instead of returning None is
also a failed attempt; it merely skips its sleep). -/

inductive LedgerOp where
  | insertTx (id : Nat)
  | readTx (id : Nat) (found : Bool)
  | sleep (delay : ℚ)
deriving DecidableEq, Repr

def LedgerOp.isInsert : LedgerOp → Bool
  | .insertTx _ => true
  | _ => false

def LedgerOp.isRead : LedgerOp → Bool
  | .readTx _ _ => true
  | _ => false

/-- The delays slept by the retry loop, in order. -/
def sleepsOf (l : List LedgerOp) : List ℚ :=
  l.filterMap (fun op => match op with | .sleep d => some d | _ => none)

/-- `for attempt in range(max_retries)` (transaction_service.py 134-150):
read back the record by its pre-assigned id; return on success, else
sleep `0.1 * (attempt + 1)` seconds and try again. -/
def read_back_loop (txId : Nat) (readOk : Nat → Bool) :
    Nat → Nat → List LedgerOp × Bool
  | _, 0 => ([], false)
  | attempt, fuel + 1 =>
    if readOk attempt then ([.readTx txId true], true)
    else
      let rest := read_back_loop txId readOk (attempt + 1) fuel
      (.readTx txId false :: .sleep (((attempt : ℚ) + 1) / 10) :: rest.1, rest.2)

def max_retries : Nat := 3

/-- `create_transaction` (transaction_service.py 96-159): validate the
ids, generate the record id up front, insert once, raise if the insert is
not acknowledged, then confirm by re-reading with `read_back_loop`; when
all `max_retries` attempts fail, raise — the insert stays committed.  The
boolean result is success of the whole call. -/
def create_transaction (txId : Nat) (validIds acked : Bool)
    (readOk : Nat → Bool) : List LedgerOp × Bool :=
  if !validIds then ([], false)
  else if !acked then ([.insertTx txId], false)
  else
    let loop := read_back_loop txId readOk 0 max_retries
    (.insertTx txId :: loop.1, loop.2)

/-! ## Lemmas about the store primitives -/

theorem updateFirst_append_of_none {α : Type} {p : α → Bool} {f : α → α}
    {l1 : List α} (l2 : List α) (h : ∀ x ∈ l1, p x = false) :
    updateFirst p f (l1 ++ l2) = l1 ++ updateFirst p f l2 := by
  induction l1 with
  | nil => rfl
  | cons x xs ih =>
    have hx := h x (List.mem_cons_self x xs)
    have ih2 := ih fun y hy => h y (List.mem_cons_of_mem x hy)
    simp [updateFirst, hx, ih2]

theorem find?_append_of_none {α : Type} {p : α → Bool} {l1 : List α}
    (l2 : List α) (h : l1.find? p = none) :
    (l1 ++ l2).find? p = l2.find? p := by
  simp [List.find?_append, h]

/-- If `a` is the only element of `l` satisfying `p`, `find?` returns it. -/
theorem find?_eq_of_unique {α : Type} {p : α → Bool} {l : List α} {a : α}
    (ha : a ∈ l) (hpa : p a = true) (huniq : ∀ b ∈ l, p b = true → b = a) :
    l.find? p = some a := by
  cases h : l.find? p with
  | none => exact absurd hpa (by simpa using List.find?_eq_none.mp h a ha)
  | some y =>
    rw [huniq y (List.mem_of_find?_eq_some h) (List.find?_some h)]

/-- Updating the first user with a given id commutes with looking that
user up: the lookup sees the updated balance. -/
theorem find?_updateFirst_user (uid : Nat) (g : ℚ → ℚ) :
    ∀ l : List UserDoc,
      (updateFirst (fun u => u.id == uid)
          (fun u => { u with balance := g u.balance }) l).find?
          (fun u => u.id == uid)
        = (l.find? (fun u => u.id == uid)).map
            (fun u => { u with balance := g u.balance })
  | [] => rfl
  | x :: xs => by
    by_cases h : x.id = uid
    · simp [updateFirst, h]
    · have hb : (x.id == uid) = false := by simpa using h
      simp [updateFirst, hb, find?_updateFirst_user uid g xs]

theorem balanceOf_incBalance (s : DB) (uid : Nat) (delta : ℚ) :
    (s.incBalance uid delta).balanceOf uid
      = (s.balanceOf uid).map (fun b => b + delta) := by
  simp only [DB.incBalance, DB.balanceOf]
  rw [find?_updateFirst_user uid (fun b => b + delta) s.users]
  cases s.users.find? (fun u => u.id == uid) <;> rfl

/-- A user visible through `balanceOf` makes `List.any` (the
`modified_count` test of `update_user_balance`) succeed. -/
theorem any_of_balanceOf {s : DB} {uid : Nat} {b : ℚ}
    (h : s.balanceOf uid = some b) :
    s.users.any (fun u => u.id == uid) = true := by
  unfold DB.balanceOf at h
  cases hu : s.users.find? (fun u => u.id == uid) with
  | none => rw [hu] at h; simp at h
  | some u =>
    have hpu := @List.find?_some UserDoc (fun x => x.id == uid) u s.users hu
    exact List.any_eq_true.mpr ⟨u, List.mem_of_find?_eq_some hu, hpu⟩

/-! ## Concrete inputs used by the counterexamples and evaluations -/

def dbC1 : DB :=
  { users := [{ id := 1, balance := 100 }],
    deposits := [{ id := 10, user_id := 1, amount := 40,
                   reference := "DEP-1", status := .pending }],
    withdrawals := [], transactions := [] }

def dbC2 : DB :=
  { users := [{ id := 1, balance := 1000 }],
    deposits := [], withdrawals := [], transactions := [] }

def gameWinInput : TransactionCreateDoc :=
  { type := .game, amount := 50, result := some .win,
    payout := some 120, reference := some "GAME-1" }

def dbC4 : DB :=
  { users := [{ id := 1, balance := 0 }],
    deposits := [], withdrawals := [], transactions := [] }

def baC6 : BankAccount :=
  { account_number := "0123456789", account_name := "A B", bank_name := "Bank" }

def dbC6 : DB :=
  { users := [{ id := 1, balance := 60 }],
    deposits := [],
    withdrawals := [{ id := 20, user_id := 1, amount := 40,
                      bank_account := baC6, reference := "WDR-1",
                      status := .pending }],
    transactions := [{ id := 5, user_id := 1, type := .withdrawal,
                       amount := 40, reference := some "WDR-1",
                       status := some "pending" }] }

def dbC7 : DB :=
  { users := [{ id := 2, balance := 100 }],
    deposits := [{ id := 12, user_id := 2, amount := 40,
                   reference := "DEP-3", status := .pending }],
    withdrawals := [], transactions := [] }

/-! ## Claim theorems -/

/-- C1: approving a pending deposit is NOT all-or-nothing.  At the
concrete failing input (pending deposit 10 of amount 40 for user 1 with
balance 100, the step-(3) ledger insert failing), the aborted call
returns None, yet the balance credit — issued by `update_user_balance`
outside the session — survives: the balance is 140 while the deposit is
still pending and no ledger record exists.  This evaluates the code at
the failing input; the spec's all-three-sub-steps-or-nothing requirement
is the documented intent of the session transaction the code opens. -/
theorem approve_deposit_partial_commit :
    approve_deposit dbC1 10 99 false
      = (none, { dbC1 with users := [{ id := 1, balance := 140 }] }) ∧
    (approve_deposit dbC1 10 99 false).2.deposits
      = [{ id := 10, user_id := 1, amount := 40,
           reference := "DEP-1", status := .pending }] ∧
    (approve_deposit dbC1 10 99 false).2.transactions = [] ∧
    ¬ (approve_deposit dbC1 10 99 false).2 = dbC1 := by
  norm_num [approve_deposit, dbC1, update_user_balance, DB.incBalance,
    updateFirst, DepositStatus.isPending, List.find?, List.any]

/-- C2 counterexample: `settle(stake=50, outcome=win, payout=120)` does
NOT increase the balance by 120 — the route computes
`balance_change = -stake + payout`, so the balance goes from 1000 to
1070, not 1120. -/
theorem game_win_credits_net_not_payout :
    (create_game_transaction dbC2 1 gameWinInput 7).2.balanceOf 1 = some 1070 ∧
    ¬ (create_game_transaction dbC2 1 gameWinInput 7).2.balanceOf 1
        = some (1000 + 120) := by
  norm_num [create_game_transaction, dbC2, gameWinInput, DB.balanceOf,
    DB.incBalance, truthyQ, truthyS, updateFirst, List.find?]

/-- C4 counterexample: a successful deposit request creates the pending
DepositRequest but NO TransactionRecord — the transactions collection is
untouched. -/
theorem create_deposit_writes_no_ledger_record :
    (create_deposit dbC4 1 100 "DEP-2" 11 true).1
      = .ok { id := 11, user_id := 1, amount := 100,
              reference := "DEP-2", status := .pending } ∧
    (create_deposit dbC4 1 100 "DEP-2" 11 true).2.transactions = [] := by
  norm_num [create_deposit, dbC4]

/-- C6 counterexample: approving a pending withdrawal does not set the
linked TransactionRecord to "completed": `approve_withdrawal` leaves it
"pending" (it never touches the transactions collection), and
`process_withdrawal` with an approve decision sets it to "approved". -/
theorem approve_withdrawal_not_completed_ledger :
    ((approve_withdrawal dbC6 20).2.transactions.map TxDoc.status
      = [some "pending"]) ∧
    ((process_withdrawal dbC6 20 .approved (some "ok") (some 2) 99).2.transactions.map TxDoc.status
      = [some "approved"]) ∧
    ¬ (some "pending" : Option String) = some "completed" ∧
    ¬ (some "approved" : Option String) = some "completed" := by
  refine ⟨?_, ?_, by decide, by decide⟩ <;>
    norm_num [approve_withdrawal, process_withdrawal, dbC6, baC6,
      WithdrawalStatus.isPending, WithdrawalStatus.value, DB.incBalance,
      updateFirst, List.find?]

/-- C7 counterexample: the ledger record written by a successful deposit
approval carries NO status field at all (TransactionCreate has no status),
so it is not "in status completed". -/
theorem approve_deposit_ledger_entry_has_no_status :
    ((approve_deposit dbC7 12 99 true).1
      = some { id := 12, user_id := 2, amount := 40,
               reference := "DEP-3", status := .approved }) ∧
    ((approve_deposit dbC7 12 99 true).2.transactions.map TxDoc.status
      = [none]) ∧
    ¬ (none : Option String) = some "completed" := by
  refine ⟨?_, ?_, by decide⟩ <;>
    norm_num [approve_deposit, dbC7, update_user_balance, DB.incBalance,
      updateFirst, DepositStatus.isPending, List.find?, List.any]

/-- `balanceOf` reads only the users collection. -/
theorem balanceOf_congr_users {s1 s2 : DB} (h : s1.users = s2.users) (uid : Nat) :
    s1.balanceOf uid = s2.balanceOf uid := by
  unfold DB.balanceOf
  rw [h]

theorem incBalance_transactions (s : DB) (uid : Nat) (d : ℚ) :
    (s.incBalance uid d).transactions = s.transactions := rfl

theorem incBalance_deposits (s : DB) (uid : Nat) (d : ℚ) :
    (s.incBalance uid d).deposits = s.deposits := rfl

theorem incBalance_withdrawals (s : DB) (uid : Nat) (d : ℚ) :
    (s.incBalance uid d).withdrawals = s.withdrawals := rfl

/-- C4 (amended): a deposit request through the service with amount > 0
creates only the pending DepositRequest — no TransactionRecord is
written at request time and the users collection is untouched.  The
route checks amount ≤ 0 and raises 400 "Amount must be positive", but
having no `except HTTPException` clause it catches its own exception and
surfaces a 500 internal error — the same outcome as the mismatched
service call on the amount > 0 path — so no typed InvalidAmount ever
reaches the caller and the state is never changed by the route. -/
theorem create_deposit_amended (s : DB) (uid : Nat) (amount : ℚ)
    (reference : String) (newId : Nat) :
    create_deposit s uid amount reference newId true
      = (.ok { id := newId, user_id := uid, amount := amount,
               reference := reference, status := .pending },
         { s with deposits := s.deposits ++
             [{ id := newId, user_id := uid, amount := amount,
                reference := reference, status := .pending }] }) ∧
    (create_deposit s uid amount reference newId true).2.transactions
      = s.transactions ∧
    (create_deposit s uid amount reference newId true).2.users = s.users ∧
    (amount ≤ 0 →
      create_new_deposit_body amount
        = .error (.httpBadRequest "Amount must be positive")) ∧
    (∀ a : ℚ, create_new_deposit s a = (.error .internalError, s)) := by
  refine ⟨rfl, rfl, rfl, fun h => ?_, fun a => ?_⟩
  · simp [create_new_deposit_body, h]
  · by_cases h : a ≤ 0 <;>
      simp [create_new_deposit, create_new_deposit_body, h]

/-- Witness for `create_deposit_amended` at a concrete input. -/
theorem create_deposit_amended_witness :
    (-5 : ℚ) ≤ 0 ∧
    create_new_deposit_body (-5)
      = .error (.httpBadRequest "Amount must be positive") ∧
    create_new_deposit dbC4 (-5) = (.error .internalError, dbC4) :=
  ⟨by norm_num,
   (create_deposit_amended dbC4 1 (-5) "DEP-X" 3).2.2.2.1 (by norm_num),
   (create_deposit_amended dbC4 1 (-5) "DEP-X" 3).2.2.2.2 (-5)⟩

/-- C2 (amended): game settlement with the authenticated caller's id:
a win with nonzero payout p changes the balance by p − stake (the net
credit), a loss changes it by −stake, and exactly one record of the
requested kind is appended with amount = stake, result = outcome, and
payout = p on the win. -/
theorem create_game_transaction_settles (s : DB) (uid tid : Nat)
    (b stake p : ℚ) (r : Option String)
    (hb : s.balanceOf uid = some b) (hp : ¬ p = 0) :
    ((create_game_transaction s uid
        { type := .game, amount := stake, result := some .win,
          payout := some p, reference := r } tid).2.balanceOf uid
      = some (b + (p - stake))) ∧
    ((create_game_transaction s uid
        { type := .game, amount := stake, result := some .win,
          payout := some p, reference := r } tid).1
      = .ok { id := tid, user_id := uid, type := .game, amount := stake,
              reference := r, result := some .win, payout := some p }) ∧
    ((create_game_transaction s uid
        { type := .game, amount := stake, result := some .win,
          payout := some p, reference := r } tid).2.transactions
      = s.transactions ++
        [{ id := tid, user_id := uid, type := .game, amount := stake,
           reference := r, result := some .win, payout := some p }]) ∧
    ((create_game_transaction s uid
        { type := .game, amount := stake, result := some .lose,
          payout := none, reference := r } tid).2.balanceOf uid
      = some (b - stake)) ∧
    ((create_game_transaction s uid
        { type := .game, amount := stake, result := some .lose,
          payout := none, reference := r } tid).2.transactions
      = s.transactions ++
        [{ id := tid, user_id := uid, type := .game, amount := stake,
           reference := r, result := some .lose }]) := by
  have hw := balanceOf_incBalance s uid (p - stake)
  have hl := balanceOf_incBalance s uid (-stake)
  rw [hb] at hw hl
  refine ⟨?_, ?_, ?_, ?_, ?_⟩ <;>
    simp [create_game_transaction, truthyQ, truthyS, hp]
  · exact hw
  · simpa [sub_eq_add_neg] using hl

/-- Witness for `create_game_transaction_settles` at a concrete input. -/
theorem create_game_transaction_settles_witness :
    dbC2.balanceOf 1 = some 1000 ∧ ¬ (120 : ℚ) = 0 ∧
    (create_game_transaction dbC2 1
        { type := .game, amount := 50, result := some .win,
          payout := some 120, reference := some "GAME-1" } 7).2.balanceOf 1
      = some (1000 + (120 - 50)) :=
  ⟨by norm_num [DB.balanceOf, dbC2, List.find?], by norm_num,
   (create_game_transaction_settles dbC2 1 7 1000 50 120 (some "GAME-1")
     (by norm_num [DB.balanceOf, dbC2, List.find?]) (by norm_num)).1⟩

/-- C3: a withdrawal request validates amount > 0 (WithdrawalCreate's
`gt=0` — requests with amount ≤ 0 fail validation) and amount ≤ balance:
when amount exceeds the balance it fails with "Insufficient balance" and
the state — in particular the balance — is unchanged; otherwise, in one
atomic unit, it debits the account immediately, creates the pending
WithdrawalRequest, and appends the pending ledger record. -/
theorem create_withdrawal_spec (s : DB) (uid wid tid : Nat) (u : UserDoc)
    (amount : ℚ) (ba : BankAccount) (r autoRef : String)
    (hu : s.users.find? (fun x => x.id == uid) = some u) (hr : ¬ r = "") :
    (∀ a : ℚ, a ≤ 0 → withdrawal_create_valid a = false) ∧
    (u.balance < amount →
      create_withdrawal s amount ba (some r) uid wid tid autoRef
        = (.error .insufficientBalance, s)) ∧
    (amount ≤ u.balance →
      create_withdrawal s amount ba (some r) uid wid tid autoRef
        = (.ok { id := wid, user_id := uid, amount := amount,
                 bank_account := ba, reference := r, status := .pending },
           { (s.incBalance uid (-amount)) with
               withdrawals := s.withdrawals ++
                 [{ id := wid, user_id := uid, amount := amount,
                    bank_account := ba, reference := r, status := .pending }],
               transactions := s.transactions ++
                 [{ id := tid, user_id := uid, type := .withdrawal,
                    amount := amount, reference := some r,
                    status := some "pending" }] }) ∧
      (create_withdrawal s amount ba (some r) uid wid tid autoRef).2.balanceOf uid
        = some (u.balance - amount)) := by
  have hbal : s.balanceOf uid = some u.balance := by
    simp [DB.balanceOf, hu]
  refine ⟨?_, ?_, fun hle => ⟨?_, ?_⟩⟩
  · intro a ha
    simp [withdrawal_create_valid, not_lt.mpr ha]
  · intro hlt
    simp [create_withdrawal, hu, hlt]
  · simp [create_withdrawal, hu, not_lt.mpr hle, resolve_reference, hr]
  · have hinc := balanceOf_incBalance s uid (-amount)
    rw [hbal] at hinc
    simp [create_withdrawal, hu, not_lt.mpr hle]
    rw [show ∀ x : DB, ∀ w t, (DB.balanceOf { x with withdrawals := w, transactions := t } uid) = x.balanceOf uid from fun x w t => rfl]
    simpa [sub_eq_add_neg] using hinc

/-- Witness for `create_withdrawal_spec` at a concrete input. -/
theorem create_withdrawal_spec_witness :
    dbC2.users.find? (fun x => x.id == 1) = some { id := 1, balance := 1000 } ∧
    ¬ "WDR-9" = "" ∧
    ((1000 : ℚ) < 1001 →
      create_withdrawal dbC2 1001 baC6 (some "WDR-9") 1 21 31 "AUTO"
        = (.error .insufficientBalance, dbC2)) :=
  ⟨by norm_num [dbC2, List.find?], by decide,
   fun h => (create_withdrawal_spec dbC2 1 21 31 { id := 1, balance := 1000 }
     1001 baC6 "WDR-9" "AUTO" (by norm_num [dbC2, List.find?]) (by decide)).2.1 h⟩

theorem depositStatus_isPending_iff {x : DepositStatus} :
    x.isPending = true ↔ x = .pending := by
  cases x <;> simp [DepositStatus.isPending]

theorem withdrawalStatus_isPending_iff {x : WithdrawalStatus} :
    x.isPending = true ↔ x = .pending := by
  cases x <;> simp [WithdrawalStatus.isPending]

theorem depositStatus_isPending_eq_false_of_ne {x : DepositStatus}
    (h : ¬ x = .pending) : x.isPending = false := by
  cases x
  · exact absurd rfl h
  · rfl
  · rfl

/-- C7 (amended): approving a pending deposit returns it with status
approved, credits the account by exactly the deposit's amount, and
appends one ledger record (type deposit, the deposit's amount and
reference) that carries NO status field; when no pending deposit with the
id exists the call fails and changes nothing. -/
theorem approve_deposit_amended (s : DB) (did tid : Nat) (d : DepositDoc) (b : ℚ)
    (hd : s.deposits.find? (fun x => x.id == did && x.status.isPending) = some d)
    (hb : s.balanceOf d.user_id = some b) (ha : ¬ d.amount = 0) :
    (approve_deposit s did tid true).1 = some { d with status := .approved } ∧
    (approve_deposit s did tid true).2.balanceOf d.user_id = some (b + d.amount) ∧
    (approve_deposit s did tid true).2.transactions
      = s.transactions ++
        [{ id := tid, user_id := d.user_id, type := .deposit,
           amount := d.amount, reference := some d.reference }] ∧
    (approve_deposit s did tid true).2.deposits
      = updateFirst (fun x => x.id == did)
          (fun x => { x with status := .approved }) s.deposits ∧
    (∀ s2 : DB, ∀ did2 tid2 : Nat, ∀ ok : Bool,
      s2.deposits.find? (fun x => x.id == did2 && x.status.isPending) = none →
      approve_deposit s2 did2 tid2 ok = (none, s2)) := by
  have hany := any_of_balanceOf hb
  have hne : (d.amount == 0) = false := by simp [ha]
  have hinc := balanceOf_incBalance s d.user_id d.amount
  rw [hb] at hinc
  refine ⟨?_, ?_, ?_, ?_, ?_⟩
  · simp [approve_deposit, hd, update_user_balance, hany, hne]
  · simp only [approve_deposit, hd, update_user_balance, hany, hne]
    simpa using hinc
  · simp [approve_deposit, hd, update_user_balance, hany, hne,
      incBalance_transactions]
  · simp [approve_deposit, hd, update_user_balance, hany, hne,
      incBalance_deposits]
  · intro s2 did2 tid2 ok h
    simp [approve_deposit, h]

/-- Witness for `approve_deposit_amended` at a concrete input. -/
theorem approve_deposit_amended_witness :
    dbC1.deposits.find? (fun x => x.id == 10 && x.status.isPending)
      = some { id := 10, user_id := 1, amount := 40,
               reference := "DEP-1", status := .pending } ∧
    dbC1.balanceOf 1 = some 100 ∧ ¬ (40 : ℚ) = 0 ∧
    (approve_deposit dbC1 10 98 true).2.balanceOf 1 = some (100 + 40) :=
  ⟨by norm_num [dbC1, List.find?, DepositStatus.isPending],
   by norm_num [dbC1, DB.balanceOf, List.find?], by norm_num,
   (approve_deposit_amended dbC1 10 98
     { id := 10, user_id := 1, amount := 40,
       reference := "DEP-1", status := .pending } 100
     (by norm_num [dbC1, List.find?, DepositStatus.isPending])
     (by norm_num [dbC1, DB.balanceOf, List.find?]) (by norm_num)).2.1⟩

/-- C6 (amended): `approve_withdrawal` compare-and-sets only the
withdrawal's status to approved — it leaves the users and transactions
collections untouched, so the linked ledger record keeps its previous
status; `process_withdrawal` with an approve decision sets the linked
record's status to "approved" (the enum value, not "completed") and also
leaves the balance unchanged; with no pending withdrawal of that id the
call fails and changes nothing. -/
theorem approve_withdrawal_amended (s : DB) (wid tid : Nat) (w : WithdrawalDoc)
    (notes : Option String) (aid : Option Nat)
    (hw : s.withdrawals.find? (fun x => x.id == wid && x.status.isPending) = some w) :
    approve_withdrawal s wid
      = (some { w with status := .approved },
         { s with
             withdrawals := updateFirst
               (fun x => x.id == wid && x.status.isPending)
               (fun x => { x with status := .approved }) s.withdrawals }) ∧
    (approve_withdrawal s wid).2.users = s.users ∧
    (approve_withdrawal s wid).2.transactions = s.transactions ∧
    (process_withdrawal s wid .approved notes aid tid).2.users = s.users ∧
    (process_withdrawal s wid .approved notes aid tid).2.transactions
      = updateFirst (fun t => t.reference == some w.reference)
          (fun t => { t with status := some "approved" }) s.transactions ∧
    (∀ s2 : DB, ∀ wid2 : Nat,
      s2.withdrawals.find? (fun x => x.id == wid2 && x.status.isPending) = none →
      approve_withdrawal s2 wid2 = (none, s2)) := by
  refine ⟨?_, ?_, ?_, ?_, ?_, ?_⟩
  · simp [approve_withdrawal, hw]
  · simp [approve_withdrawal, hw]
  · simp [approve_withdrawal, hw]
  · simp [process_withdrawal, hw]
  · simp [process_withdrawal, hw, WithdrawalStatus.value]
  · intro s2 wid2 h
    simp [approve_withdrawal, h]

/-- Witness for `approve_withdrawal_amended` at a concrete input. -/
theorem approve_withdrawal_amended_witness :
    dbC6.withdrawals.find? (fun x => x.id == 20 && x.status.isPending)
      = some { id := 20, user_id := 1, amount := 40, bank_account := baC6,
               reference := "WDR-1", status := .pending } ∧
    (approve_withdrawal dbC6 20).2.transactions = dbC6.transactions :=
  ⟨by norm_num [dbC6, baC6, List.find?, WithdrawalStatus.isPending],
   (approve_withdrawal_amended dbC6 20 97
     { id := 20, user_id := 1, amount := 40, bank_account := baC6,
       reference := "WDR-1", status := .pending } none none
     (by norm_num [dbC6, baC6, List.find?, WithdrawalStatus.isPending])).2.2.1⟩

theorem withdrawalStatus_isPending_eq_false_of_ne {x : WithdrawalStatus}
    (h : ¬ x = .pending) : x.isPending = false := by
  cases x
  · exact absurd rfl h
  · rfl
  · rfl

/-- C8: every status transition requires the current status to be
"pending" (the pending check sits in the query filter or is tested before
the update): on a deposit or withdrawal that is already approved or
rejected, each of the five transition entry points returns None — the
caller surfaces NotFound — and leaves the state, in particular every
balance, unchanged. -/
theorem non_pending_transitions_fail (s : DB) (d : DepositDoc)
    (w : WithdrawalDoc) (tid : Nat) (ok : Bool) (st : WithdrawalStatus)
    (notes : Option String) (aid : Option Nat)
    (hd : d ∈ s.deposits) (hdnp : ¬ d.status = .pending)
    (hdu : ∀ x ∈ s.deposits, x.id = d.id → x = d)
    (hw : w ∈ s.withdrawals) (hwnp : ¬ w.status = .pending)
    (hwu : ∀ x ∈ s.withdrawals, x.id = w.id → x = w) :
    approve_deposit s d.id tid ok = (none, s) ∧
    reject_deposit s d.id = (none, s) ∧
    approve_withdrawal s w.id = (none, s) ∧
    reject_withdrawal s w.id tid = (none, s) ∧
    process_withdrawal s w.id st notes aid tid = (none, s) := by
  have hfd : s.deposits.find? (fun x => x.id == d.id && x.status.isPending) = none := by
    rw [List.find?_eq_none]
    intro x hx hpx
    simp only [Bool.and_eq_true, beq_iff_eq, depositStatus_isPending_iff] at hpx
    exact hdnp (hdu x hx hpx.1 ▸ hpx.2)
  have hfw : s.withdrawals.find? (fun x => x.id == w.id && x.status.isPending) = none := by
    rw [List.find?_eq_none]
    intro x hx hpx
    simp only [Bool.and_eq_true, beq_iff_eq, withdrawalStatus_isPending_iff] at hpx
    exact hwnp (hwu x hx hpx.1 ▸ hpx.2)
  have hfd2 : s.deposits.find? (fun x => x.id == d.id) = some d :=
    find?_eq_of_unique hd (by simp)
      (fun x hx hpx => hdu x hx (by simpa using hpx))
  refine ⟨?_, ?_, ?_, ?_, ?_⟩
  · simp [approve_deposit, hfd]
  · simp [reject_deposit, hfd2, depositStatus_isPending_eq_false_of_ne hdnp]
  · simp [approve_withdrawal, hfw]
  · simp [reject_withdrawal, hfw]
  · simp [process_withdrawal, hfw]

def dbC8 : DB :=
  { users := [{ id := 3, balance := 10 }],
    deposits := [{ id := 30, user_id := 3, amount := 5,
                   reference := "DEP-8", status := .approved }],
    withdrawals := [{ id := 40, user_id := 3, amount := 5,
                      bank_account := baC6, reference := "WDR-8",
                      status := .rejected }],
    transactions := [] }

/-- Witness for `non_pending_transitions_fail` at a concrete input. -/
theorem non_pending_transitions_fail_witness :
    ({ id := 30, user_id := 3, amount := 5, reference := "DEP-8",
       status := .approved } : DepositDoc) ∈ dbC8.deposits ∧
    ({ id := 40, user_id := 3, amount := 5, bank_account := baC6,
       reference := "WDR-8", status := .rejected } : WithdrawalDoc) ∈ dbC8.withdrawals ∧
    approve_deposit dbC8 30 96 true = (none, dbC8) ∧
    reject_withdrawal dbC8 40 96 = (none, dbC8) := by
  have h := non_pending_transitions_fail dbC8
    { id := 30, user_id := 3, amount := 5, reference := "DEP-8",
      status := .approved }
    { id := 40, user_id := 3, amount := 5, bank_account := baC6,
      reference := "WDR-8", status := .rejected }
    96 true .rejected none none
    (List.mem_singleton.mpr rfl) (by simp)
    (fun x hx h2 => List.mem_singleton.mp hx)
    (List.mem_singleton.mpr rfl) (by simp)
    (fun x hx h2 => List.mem_singleton.mp hx)
  exact ⟨List.mem_singleton.mpr rfl, List.mem_singleton.mpr rfl, h.1, h.2.2.2.1⟩

/-- C10: when a pending withdrawal is rejected, the compensating ledger
entry is written with transaction type DEPOSIT (not withdrawal), amount
equal to the withdrawal's amount, and reference "REFUND-" prefixed to the
withdrawal's reference — via `reject_withdrawal` (whose refund record
carries no status field) and via `process_withdrawal` with a rejected
decision (whose refund record carries status "completed"). -/
theorem withdrawal_refund_entry (s : DB) (w : WithdrawalDoc) (tid : Nat)
    (notes : Option String) (aid : Option Nat)
    (hw : w ∈ s.withdrawals) (hwp : w.status = .pending)
    (hwu : ∀ x ∈ s.withdrawals, x.id = w.id → x = w) :
    (reject_withdrawal s w.id tid).2.transactions
      = s.transactions ++
        [{ id := tid, user_id := w.user_id, type := .deposit,
           amount := w.amount, reference := some ("REFUND-" ++ w.reference) }] ∧
    (reject_withdrawal s w.id tid).1 = some { w with status := .rejected } ∧
    (process_withdrawal s w.id .rejected notes aid tid).2.transactions
      = updateFirst (fun t => t.reference == some w.reference)
          (fun t => { t with status := some "rejected" }) s.transactions ++
        [{ id := tid, user_id := w.user_id, type := .deposit,
           amount := w.amount, reference := some ("REFUND-" ++ w.reference),
           status := some "completed", notes := some "Withdrawal refund" }] := by
  have hfw : s.withdrawals.find? (fun x => x.id == w.id && x.status.isPending) = some w :=
    find?_eq_of_unique hw (by simp [hwp, WithdrawalStatus.isPending])
      (fun x hx hpx => hwu x hx
        (by simp only [Bool.and_eq_true, beq_iff_eq] at hpx; exact hpx.1))
  refine ⟨?_, ?_, ?_⟩
  · simp [reject_withdrawal, hfw, incBalance_transactions]
  · simp [reject_withdrawal, hfw]
  · simp [process_withdrawal, hfw, WithdrawalStatus.value, incBalance_transactions]

/-- Witness for `withdrawal_refund_entry` at a concrete input. -/
theorem withdrawal_refund_entry_witness :
    ({ id := 20, user_id := 1, amount := 40, bank_account := baC6,
       reference := "WDR-1", status := .pending } : WithdrawalDoc) ∈ dbC6.withdrawals ∧
    (reject_withdrawal dbC6 20 95).2.transactions
      = dbC6.transactions ++
        [{ id := 95, user_id := 1, type := .deposit, amount := 40,
           reference := some ("REFUND-" ++ "WDR-1") }] := by
  have h := withdrawal_refund_entry dbC6
    { id := 20, user_id := 1, amount := 40, bank_account := baC6,
      reference := "WDR-1", status := .pending }
    95 none none (List.mem_singleton.mpr rfl) rfl
    (fun x hx h2 => List.mem_singleton.mp hx)
  exact ⟨List.mem_singleton.mpr rfl, h.1⟩

/-- Rejecting a pending withdrawal credits its user by its amount. -/
theorem reject_withdrawal_balance (s : DB) (wid tid : Nat) (w : WithdrawalDoc)
    (hfind : s.withdrawals.find? (fun x => x.id == wid && x.status.isPending) = some w) :
    (reject_withdrawal s wid tid).2.balanceOf w.user_id
      = (s.balanceOf w.user_id).map (fun b => b + w.amount) := by
  simp only [reject_withdrawal, hfind]
  exact balanceOf_incBalance
    { s with
        withdrawals := updateFirst (fun x => x.id == wid)
          (fun x => { x with status := .rejected }) s.withdrawals }
    w.user_id w.amount

/-- C5: a withdrawal request for `amount` followed by a reject of that
same withdrawal nets to a zero balance change, and exactly two ledger
records exist for the pair: the original pending debit entry (reference
r) and the compensating credit entry referencing the refund
("REFUND-" ++ r). -/
theorem withdrawal_request_reject_net_zero (s : DB) (uid wid tid rtid : Nat)
    (u : UserDoc) (amount : ℚ) (ba : BankAccount) (r autoRef : String)
    (hu : s.users.find? (fun x => x.id == uid) = some u)
    (hr : ¬ r = "") (hle : amount ≤ u.balance)
    (hwid : ∀ x ∈ s.withdrawals, ¬ x.id = wid) :
    (create_withdrawal s amount ba (some r) uid wid tid autoRef).1
      = .ok { id := wid, user_id := uid, amount := amount, bank_account := ba,
              reference := r, status := .pending } ∧
    (reject_withdrawal
        (create_withdrawal s amount ba (some r) uid wid tid autoRef).2 wid rtid).1
      = some { id := wid, user_id := uid, amount := amount, bank_account := ba,
               reference := r, status := .rejected } ∧
    (reject_withdrawal
        (create_withdrawal s amount ba (some r) uid wid tid autoRef).2 wid rtid).2.balanceOf uid
      = s.balanceOf uid ∧
    (reject_withdrawal
        (create_withdrawal s amount ba (some r) uid wid tid autoRef).2 wid rtid).2.transactions
      = s.transactions ++
        [{ id := tid, user_id := uid, type := .withdrawal, amount := amount,
           reference := some r, status := some "pending" },
         { id := rtid, user_id := uid, type := .deposit, amount := amount,
           reference := some ("REFUND-" ++ r) }] := by
  have hbal : s.balanceOf uid = some u.balance := by
    simp [DB.balanceOf, hu]
  have h1 : create_withdrawal s amount ba (some r) uid wid tid autoRef
      = (.ok { id := wid, user_id := uid, amount := amount, bank_account := ba,
               reference := r, status := .pending },
         { (s.incBalance uid (-amount)) with
             withdrawals := s.withdrawals ++
               [{ id := wid, user_id := uid, amount := amount, bank_account := ba,
                  reference := r, status := .pending }],
             transactions := s.transactions ++
               [{ id := tid, user_id := uid, type := .withdrawal, amount := amount,
                  reference := some r, status := some "pending" }] }) := by
    simp [create_withdrawal, hu, not_lt.mpr hle, resolve_reference, hr]
  have hnone : s.withdrawals.find? (fun x => x.id == wid && x.status.isPending) = none := by
    rw [List.find?_eq_none]
    intro x hx hpx
    simp only [Bool.and_eq_true, beq_iff_eq] at hpx
    exact hwid x hx hpx.1
  have hfind : (s.withdrawals ++
        [({ id := wid, user_id := uid, amount := amount, bank_account := ba,
            reference := r, status := .pending } : WithdrawalDoc)]).find?
        (fun x => x.id == wid && x.status.isPending)
      = some { id := wid, user_id := uid, amount := amount, bank_account := ba,
               reference := r, status := .pending } := by
    rw [find?_append_of_none _ hnone]
    simp [WithdrawalStatus.isPending]
  rw [h1]
  refine ⟨rfl, ?_, ?_, ?_⟩
  · simp [reject_withdrawal, hfind]
  · have hb2 := reject_withdrawal_balance
      { (s.incBalance uid (-amount)) with
          withdrawals := s.withdrawals ++
            [{ id := wid, user_id := uid, amount := amount, bank_account := ba,
               reference := r, status := .pending }],
          transactions := s.transactions ++
            [{ id := tid, user_id := uid, type := .withdrawal, amount := amount,
               reference := some r, status := some "pending" }] }
      wid rtid
      { id := wid, user_id := uid, amount := amount, bank_account := ba,
        reference := r, status := .pending } hfind
    rw [hb2]
    have hmid : (DB.balanceOf
        { (s.incBalance uid (-amount)) with
            withdrawals := s.withdrawals ++
              [{ id := wid, user_id := uid, amount := amount, bank_account := ba,
                 reference := r, status := .pending }],
            transactions := s.transactions ++
              [{ id := tid, user_id := uid, type := .withdrawal, amount := amount,
                 reference := some r, status := some "pending" }] } uid)
        = (s.balanceOf uid).map (fun b => b + (-amount)) :=
      balanceOf_incBalance s uid (-amount)
    rw [hmid, hbal]
    simp
  · simp [reject_withdrawal, hfind, incBalance_transactions]

/-- Witness for `withdrawal_request_reject_net_zero` at a concrete input. -/
theorem withdrawal_request_reject_net_zero_witness :
    dbC2.users.find? (fun x => x.id == 1) = some { id := 1, balance := 1000 } ∧
    ¬ "WDR-5" = "" ∧ (100 : ℚ) ≤ 1000 ∧
    (reject_withdrawal
        (create_withdrawal dbC2 100 baC6 (some "WDR-5") 1 50 51 "AUTO").2 50 52).2.balanceOf 1
      = dbC2.balanceOf 1 := by
  have h := withdrawal_request_reject_net_zero dbC2 1 50 51 52
    { id := 1, balance := 1000 } 100 baC6 "WDR-5" "AUTO"
    (by norm_num [dbC2, List.find?]) (by decide) (by norm_num)
    (fun x hx => absurd hx (List.not_mem_nil x))
  exact ⟨by norm_num [dbC2, List.find?], by decide, by norm_num, h.2.2.1⟩

/-- The ids targeted by the read-back attempts of a trace. -/
def readsOf (l : List LedgerOp) : List Nat :=
  l.filterMap (fun op => match op with | .readTx i _ => some i | _ => none)

theorem exists_lt_three_iff (p : Nat → Bool) :
    (∃ k, k < 3 ∧ p k = true) ↔ (p 0 = true ∨ p 1 = true ∨ p 2 = true) := by
  constructor
  · rintro ⟨k, hk, hpk⟩
    interval_cases k
    · exact Or.inl hpk
    · exact Or.inr (Or.inl hpk)
    · exact Or.inr (Or.inr hpk)
  · rintro (h | h | h)
    · exact ⟨0, by norm_num, h⟩
    · exact ⟨1, by norm_num, h⟩
    · exact ⟨2, by norm_num, h⟩

/-- C9: the ledger append generates the record id before inserting (the
insert is the trace's first operation and every read-back queries that
same id), performs the insert exactly once — the write is never retried —
and retries only the read-back confirmation, at most `max_retries` = 3
attempts with strictly increasing delays; when every attempt fails the
call reports failure even though the insert is in the trace (the write is
already committed). -/
theorem create_transaction_retry_discipline (txId : Nat) (readOk : Nat → Bool) :
    ((create_transaction txId true true readOk).1.filter LedgerOp.isInsert
      = [.insertTx txId]) ∧
    ((create_transaction txId true true readOk).1.head? = some (.insertTx txId)) ∧
    ((readsOf (create_transaction txId true true readOk).1).length ≤ max_retries) ∧
    (∀ i ∈ readsOf (create_transaction txId true true readOk).1, i = txId) ∧
    List.Chain' (fun a b => a < b)
      (sleepsOf (create_transaction txId true true readOk).1) ∧
    ((create_transaction txId true true readOk).2 = true
      ↔ ∃ k, k < 3 ∧ readOk k = true) ∧
    ((create_transaction txId true true readOk).2 = false →
      LedgerOp.insertTx txId ∈ (create_transaction txId true true readOk).1) := by
  cases h0 : readOk 0 <;> cases h1 : readOk 1 <;> cases h2 : readOk 2 <;>
    refine ⟨?_, ?_, ?_, ?_, ?_, ?_, ?_⟩ <;>
      norm_num [create_transaction, read_back_loop, max_retries, readsOf,
        sleepsOf, LedgerOp.isInsert, LedgerOp.isRead, exists_lt_three_iff,
        h0, h1, h2, List.filter, List.filterMap, List.chain'_cons,
        List.chain'_singleton, List.chain'_nil]

/-- Witness for `create_transaction_retry_discipline` at a concrete
input: a read-back that never succeeds exhausts the three attempts, the
call fails, and the insert is still in the trace. -/
theorem create_transaction_retry_discipline_witness :
    (create_transaction 5 true true (fun _ => false)).2 = false ∧
    LedgerOp.insertTx 5 ∈ (create_transaction 5 true true (fun _ => false)).1 := by
  have h := create_transaction_retry_discipline 5 (fun _ => false)
  refine ⟨by norm_num [create_transaction, read_back_loop, max_retries], ?_⟩
  exact h.2.2.2.2.2.2
    (by norm_num [create_transaction, read_back_loop, max_retries])

end GamingPlatform
